import Mathlib

/-!
Shallow embedding of the GeoIntel relocation/travel decision engine
(Server/services/scoringService.js, Server/services/cacheService.js,
Server/routes/analyze.js).

Modelling conventions:
* JS numbers are embedded as rationals (ℚ); `null`/`undefined`/NaN inputs
  are embedded as `Option` with `none`.
* `Math.round` is `jsRound` (floor of x + 1/2, which is what JS computes).
* `Math.log10` has no computable rational counterpart; the scoring
  functions take an abstract `log10 : ℚ → ℚ` parameter.  No theorem below
  depends on its values: every input under analysis has a missing (or
  falsy) population, which short-circuits before `log10` is applied.
* The async cache (`cacheService.js`) is embedded twice, over the same
  store primitives: as pure store operations (`cacheGet`/`cacheSet`), and
  as a small-step event machine (`mstep`/`mrun`) whose events are the
  synchronous segments of `getOrFetch` runs under the single-threaded JS
  event loop: a `call` event is the synchronous prefix of one `getOrFetch`
  invocation (cache lookup, in-flight join or producer start), a `settle`
  event is the synchronous continuation that runs when a producer promise
  settles (cache write / in-flight cleanup / waking all waiters).
* `scoreCountry` mutates its argument in place in JS
  (`countryData._riskTolerance = riskTolerance`); the embedding makes the
  mutation explicit by returning the updated record as a second component.
* `generateReasoning` (display strings) and the logger calls are not
  modelled; neither has any effect on the values analysed here.
-/

namespace GeoIntel

/-- JS Math.round: floor of x + 1/2 (rounds half up). -/
def jsRound (q : ℚ) : ℤ := ⌊q + 1/2⌋

/-- JS Number.prototype.toFixed(3) followed by parseFloat: round to 3 decimals. -/
def round3 (q : ℚ) : ℚ := ((jsRound (q * 1000) : ℤ) : ℚ) / 1000

/-- Math.max(0, Math.min(100, raw)) — the clamp used before every final rounding. -/
def clampScore (raw : ℚ) : ℚ := Max.max 0 (Min.min 100 raw)

/-- Model of JS String.prototype.toLowerCase for the ASCII range used by the app. -/
def jsCharLower (c : Char) : Char :=
  if 'A' ≤ c ∧ c ≤ 'Z' then Char.ofNat (c.toNat + 32) else c

/-- Model of JS String.prototype.toLowerCase. -/
def jsToLower (s : String) : String := String.mk (s.data.map jsCharLower)

/-- Model of JS String.prototype.trim. -/
def jsTrim (s : String) : String :=
  String.mk (((s.data.dropWhile Char.isWhitespace).reverse.dropWhile
    Char.isWhitespace).reverse)

/-- scoringService.js normalize: min-max scaling of a raw value to 0–100,
with inversion when lower is better and a neutral default for missing data.
Binders keep the source names; the clamp is Math.max(min, Math.min(max, value)). -/
def normalize (value : Option ℚ) (min max : ℚ) (higherIsBetter : Bool)
    (defaultScore : ℚ) : ℚ :=
  match value with
  | none => defaultScore
  | some v =>
    let clamped := Max.max min (Min.min max v)
    let ratio := (clamped - min) / (max - min)
    let scaled := if higherIsBetter then ratio else 1 - ratio
    ((jsRound (scaled * 100) : ℤ) : ℚ)

/-- scoringService.js weatherSeverityPenalty: banded severity lookup on the
OpenWeatherMap condition code.  In JS a missing id and the (unused) id 0 are
both falsy and return 0. -/
def weatherSeverityPenalty (weatherId : Option ℤ) : ℚ :=
  match weatherId with
  | none => 0
  | some id =>
    if id = 0 then 0
    else if 200 ≤ id ∧ id < 300 then 70
    else if 300 ≤ id ∧ id < 400 then 20
    else if 500 ≤ id ∧ id < 600 then 40
    else if 600 ≤ id ∧ id < 700 then 60
    else if 700 ≤ id ∧ id < 800 then 50
    else if id = 800 then 0
    else if 800 < id ∧ id < 810 then 10
    else 0

/-- scoringService.js tempComfortScore: deviation from the 21.5 °C ideal,
normalized over 0–40 with lower better. -/
def tempComfortScore (tempCelsius : Option ℚ) : ℚ :=
  match tempCelsius with
  | none => 50
  | some t =>
    let ideal : ℚ := 21.5
    let deviation := abs (t - ideal)
    normalize (some deviation) 0 40 false 50

/-- Weather record produced by apiService.fetchWeather; the fields read by the
scoring functions.  Each field is Option because the JS object is read with
optional access and may be null/undefined per field. -/
structure Weather where
  temp_celsius : Option ℚ
  temp_min : Option ℚ
  temp_max : Option ℚ
  humidity_pct : Option ℚ
  wind_speed_ms : Option ℚ
  weather_id : Option ℤ
deriving DecidableEq

/-- Air-quality record (WAQI): the aqi value read by scoring. -/
structure AqiData where
  aqi : Option ℚ
deriving DecidableEq

/-- Travel-advisory record: the 1.0–5.0 advisory score read by scoring. -/
structure AdvisoryData where
  score : Option ℚ
deriving DecidableEq

/-- World Bank record; always an object (possibly with null members). -/
structure WorldBankData where
  lifeExpectancy : Option ℚ
  healthcareExpenditure : Option ℚ
deriving DecidableEq

/-- REST-Countries profile; only population is read by the scoring engine. -/
structure CountryProfile where
  population : Option ℚ
deriving DecidableEq

/-- The aggregated per-country dataset (apiService.fetchAllDataForCountry),
including the metadata fields the scoring stage mutates onto it. -/
structure CountryDataSet where
  found : Bool
  country : String
  profile : Option CountryProfile
  worldBank : WorldBankData
  weather : Option Weather
  aqi : Option AqiData
  advisory : Option AdvisoryData
  errorMsg : Option String
  _riskTolerance : Option String
  _duration : Option String
deriving DecidableEq

/-- Travel Risk score with its explainability components. -/
structure TravelRiskBreakdown where
  score : ℚ
  temperature_comfort : ℚ
  air_quality : ℚ
  travel_advisory : ℚ
  weather_event : ℚ
deriving DecidableEq

/-- scoringService.js computeTravelRiskScore.  Sub-weights 0.20/0.30/0.35/0.15. -/
def computeTravelRiskScore (data : CountryDataSet) : TravelRiskBreakdown :=
  let tempScore :=
    match (data.weather).bind (fun w => w.temp_celsius) with
    | some t => tempComfortScore (some t)
    | none => (50 : ℚ)
  let aqiScore := normalize ((data.aqi).bind (fun a => a.aqi)) 0 300 false 50
  let advisoryScore := normalize ((data.advisory).bind (fun a => a.score)) 1 5 false 50
  let weatherEvtScore :=
    100 - weatherSeverityPenalty ((data.weather).bind (fun w => w.weather_id))
  let raw := tempScore * 0.20 + aqiScore * 0.30 + advisoryScore * 0.35 +
    weatherEvtScore * 0.15
  let score := ((jsRound (clampScore raw) : ℤ) : ℚ)
  ⟨score, tempScore, aqiScore, advisoryScore, weatherEvtScore⟩

/-- Health Infrastructure score with its components. -/
structure HealthBreakdown where
  score : ℚ
  healthcare_expenditure : ℚ
  life_expectancy : ℚ
  population_pressure : ℚ
deriving DecidableEq

/-- scoringService.js computeHealthInfrastructureScore.  Sub-weights
0.40/0.45/0.15.  In JS, `profile?.population ? … : 50` treats a missing or
zero population as falsy, skipping the log₁₀ pressure computation. -/
def computeHealthInfrastructureScore (log10 : ℚ → ℚ) (data : CountryDataSet) :
    HealthBreakdown :=
  let healthExpScore := normalize data.worldBank.healthcareExpenditure 1 15 true 50
  let lifeExpScore := normalize data.worldBank.lifeExpectancy 45 90 true 50
  let popPressureScore :=
    match (data.profile).bind (fun p => p.population) with
    | some pop =>
      if pop = 0 then (50 : ℚ)
      else normalize (some (log10 pop)) (log10 100000) (log10 2000000000) false 50
    | none => (50 : ℚ)
  let raw := healthExpScore * 0.40 + lifeExpScore * 0.45 + popPressureScore * 0.15
  let score := ((jsRound (clampScore raw) : ℤ) : ℚ)
  ⟨score, healthExpScore, lifeExpScore, popPressureScore⟩

/-- Environmental Stability score with its components. -/
structure EnvBreakdown where
  score : ℚ
  air_quality_stability : ℚ
  temperature_volatility : ℚ
  wind_comfort : ℚ
  humidity_comfort : ℚ
deriving DecidableEq

/-- scoringService.js computeEnvironmentalStabilityScore.  Sub-weights
0.35/0.25/0.15/0.25. -/
def computeEnvironmentalStabilityScore (data : CountryDataSet) : EnvBreakdown :=
  let aqiEnvScore := normalize ((data.aqi).bind (fun a => a.aqi)) 0 300 false 50
  let volatilityScore :=
    match (data.weather).bind (fun w => w.temp_max),
          (data.weather).bind (fun w => w.temp_min) with
    | some tmax, some tmin => normalize (some (tmax - tmin)) 0 20 false 50
    | _, _ => (50 : ℚ)
  let windScore := normalize ((data.weather).bind (fun w => w.wind_speed_ms)) 0 20 false 50
  let humidityScore :=
    match (data.weather).bind (fun w => w.humidity_pct) with
    | some h => normalize (some (abs (h - 45))) 0 55 false 50
    | none => (50 : ℚ)
  let raw := aqiEnvScore * 0.35 + volatilityScore * 0.25 + windScore * 0.15 +
    humidityScore * 0.25
  let score := ((jsRound (clampScore raw) : ℤ) : ℚ)
  ⟨score, aqiEnvScore, volatilityScore, windScore, humidityScore⟩

/-- scoringService.js getDynamicWeights before the final toFixed(3): base
profile 0.40/0.35/0.25, a risk-tolerance phase and a duration phase, each
followed by renormalization by the new sum. -/
def getDynamicWeightsRaw (riskTolerance duration : String) : ℚ × ℚ × ℚ :=
  let rt := jsToLower riskTolerance
  let d := jsToLower duration
  let travelRisk : ℚ := 0.40
  let healthInfra : ℚ := 0.35
  let envStab : ℚ := 0.25
  let phase1 : ℚ × ℚ × ℚ :=
    if rt = "low" then
      let travelRisk := travelRisk + 0.10
      let envStab := envStab + 0.05
      let healthInfra := healthInfra - 0.10
      let sum := travelRisk + healthInfra + envStab
      (travelRisk / sum, healthInfra / sum, envStab / sum)
    else if rt = "high" then
      let travelRisk := travelRisk - 0.10
      let healthInfra := healthInfra - 0.05
      let envStab := envStab + 0.10
      let sum := travelRisk + healthInfra + envStab
      (travelRisk / sum, healthInfra / sum, envStab / sum)
    else (travelRisk, healthInfra, envStab)
  if d = "long" then
    let healthInfra := phase1.2.1 + 0.10
    let travelRisk := phase1.1 - 0.05
    let envStab := phase1.2.2 - 0.05
    let sum := travelRisk + healthInfra + envStab
    (travelRisk / sum, healthInfra / sum, envStab / sum)
  else
    let envStab := phase1.2.2 + 0.08
    let healthInfra := phase1.2.1 - 0.08
    let travelRisk := phase1.1
    let sum := travelRisk + healthInfra + envStab
    (travelRisk / sum, healthInfra / sum, envStab / sum)

/-- The dynamic weight triple as returned to callers. -/
structure WeightProfile where
  travel_risk_score : ℚ
  health_infrastructure_score : ℚ
  environmental_stability_score : ℚ
deriving DecidableEq

/-- scoringService.js getDynamicWeights: the source applies
parseFloat(x.toFixed(3)) to each component at its return statement, so the
returned (and internally used) triple is the 3-decimal rounding of the raw
computation. -/
def getDynamicWeights (riskTolerance duration : String) : WeightProfile :=
  ⟨round3 (getDynamicWeightsRaw riskTolerance duration).1,
   round3 (getDynamicWeightsRaw riskTolerance duration).2.1,
   round3 (getDynamicWeightsRaw riskTolerance duration).2.2⟩

/-- Result of scoreCountry (reasoning strings omitted, see the header note). -/
structure ScoreResult where
  travel_risk_score : TravelRiskBreakdown
  health_infrastructure_score : HealthBreakdown
  environmental_stability_score : EnvBreakdown
  composite_score : ℚ
  dynamic_weights : WeightProfile
deriving DecidableEq

/-- scoringService.js scoreCountry.  The composite multiplies the three
integer scores by the weight triple returned by getDynamicWeights (i.e. the
3-decimal-rounded weights), clamps to 0–100 and rounds.  The JS function
also mutates its argument (countryData._riskTolerance / _duration); the
mutated record is returned as the second component. -/
def scoreCountry (log10 : ℚ → ℚ) (countryData : CountryDataSet)
    (riskTolerance duration : String) : ScoreResult × CountryDataSet :=
  let travelRisk := computeTravelRiskScore countryData
  let healthInfra := computeHealthInfrastructureScore log10 countryData
  let envStab := computeEnvironmentalStabilityScore countryData
  let weights := getDynamicWeights riskTolerance duration
  let compositeScore :=
    travelRisk.score * weights.travel_risk_score +
    healthInfra.score * weights.health_infrastructure_score +
    envStab.score * weights.environmental_stability_score
  let finalScore := ((jsRound (clampScore compositeScore) : ℤ) : ℚ)
  let mutated := { countryData with
    _riskTolerance := some riskTolerance, _duration := some duration }
  (⟨travelRisk, healthInfra, envStab, finalScore, weights⟩, mutated)

/-- cacheService.js ranking dependency: the fixed rank labels. -/
def RANK_LABELS : List String := ["🥇 Best Match", "🥈 Strong Option", "🥉 Good Alternative"]

/-- A scored country as assembled by the route handler (step 5); the profile
and raw-data echo fields are omitted, the cache-hit flag and scores kept. -/
structure ScoredEntry where
  country : String
  cache_hit : Bool
  scores : ScoreResult
deriving DecidableEq

/-- A ranked country (scoringService.js rankResults output element). -/
structure RankedEntry where
  country : String
  cache_hit : Bool
  scores : ScoreResult
  rank : Nat
  rank_label : String
deriving DecidableEq

/-- scoringService.js rankResults: stable sort by composite score descending
(the JS comparator (a, b) => b.composite - a.composite under the
spec-mandated stable Array.prototype.sort), then rank assignment. -/
def rankResults (scoredCountries : List ScoredEntry) : List RankedEntry :=
  let sorted := scoredCountries.mergeSort
    (fun a b => decide (b.scores.composite_score ≤ a.scores.composite_score))
  sorted.enum.map (fun p =>
    { country := p.2.country, cache_hit := p.2.cache_hit, scores := p.2.scores,
      rank := p.1 + 1,
      rank_label := RANK_LABELS.getD p.1 ("#" ++ toString (p.1 + 1) ++ " Option") })

/-- cacheService.js TTL_MS = 60 * 60 * 1000 (60 minutes). -/
def TTL_MS : Nat := 60 * 60 * 1000

/-- The cache store: a JS Map from key to { data, expiresAt }, embedded as an
association list (key, expiresAt, value) with unique keys. -/
abbrev CacheStore (V : Type) : Type := List (String × Nat × V)

/-- JS Map.prototype.delete on the store. -/
def cacheDelete {V : Type} (st : CacheStore V) (key : String) : CacheStore V :=
  List.filter (fun e => e.1 != key) st

/-- cacheService.js get(key) at time `now`: a hit only while now ≤ expiresAt;
an expired entry is deleted (lazy eviction) and reported as a miss.  Returns
the JS { data, hit } pair together with the possibly-updated store. -/
def cacheGet {V : Type} (st : CacheStore V) (key : String) (now : Nat) :
    Option V × CacheStore V :=
  match List.lookup key st with
  | none => (none, st)
  | some (expiresAt, v) =>
    if now > expiresAt then (none, cacheDelete st key) else (some v, st)

/-- cacheService.js set(key, data) at time `now`: store with
expiresAt = now + TTL_MS, replacing any entry at the key (Map.set). -/
def cacheSet {V : Type} (st : CacheStore V) (key : String) (v : V) (now : Nat) :
    CacheStore V :=
  if st.any (fun e => e.1 == key) then
    st.map (fun e => if e.1 == key then (key, now + TTL_MS, v) else e)
  else st ++ [(key, now + TTL_MS, v)]

/-- Outcome of one getOrFetch call: the JS { result, cacheHit } pair on
producer or cache success, or the propagated producer rejection. -/
inductive CallResult (V : Type) where
  | success (value : V) (cacheHit : Bool)
  | failure (msg : String)
deriving DecidableEq

/-- How a producer promise settles: fulfilled with a value or rejected. -/
inductive FetchSettle (V : Type) where
  | ok (value : V)
  | err (msg : String)
deriving DecidableEq

/-- State of the cache service under the event-loop embedding: the store, the
in-flight registration map (key → fetch id), a fresh-id counter, the log of
producer invocations, the calls suspended on each in-flight fetch, and the
results already delivered to callers. -/
structure MState (V : Type) where
  store : CacheStore V
  inFlight : List (String × Nat)
  nextFetchId : Nat
  producerRuns : List (Nat × String)
  waiters : List (Nat × Nat)
  results : List (Nat × CallResult V)
deriving DecidableEq

/-- The initial cache-service state: empty maps, as at module load. -/
def minit {V : Type} : MState V := ⟨[], [], 0, [], [], []⟩

/-- Atomic events of cacheService.js getOrFetch under the single-threaded JS
event loop: the synchronous prefix of a call, and the synchronous settlement
continuation of a producer promise. -/
inductive MEvent (V : Type) where
  | call (callId : Nat) (key : String) (now : Nat)
  | settle (fetchId : Nat) (outcome : FetchSettle V) (now : Nat)

/-- One synchronous step of cacheService.js getOrFetch:

call: check the cache first (with lazy eviction); on a hit resolve
immediately with cacheHit = true; otherwise join an existing in-flight
registration if present, else invoke the producer, register the new fetch
under the key before any suspension point, and wait on it.

settle ok: set(key, data) (only cache on success), clear the registration,
and resolve every suspended call with (value, cacheHit = false).

settle err: clear the registration without writing the cache and propagate
the rejection to every suspended call. -/
def mstep {V : Type} (st : MState V) : MEvent V → MState V
  | .call callId key now =>
    match cacheGet st.store key now with
    | (some v, store1) =>
      { st with store := store1,
                results := st.results ++ [(callId, .success v true)] }
    | (none, store1) =>
      match List.lookup key st.inFlight with
      | some fid =>
        { st with store := store1, waiters := st.waiters ++ [(callId, fid)] }
      | none =>
        let fid := st.nextFetchId
        { st with store := store1,
                  inFlight := st.inFlight ++ [(key, fid)],
                  nextFetchId := fid + 1,
                  producerRuns := st.producerRuns ++ [(fid, key)],
                  waiters := st.waiters ++ [(callId, fid)] }
  | .settle fid outcome now =>
    match List.lookup fid st.producerRuns with
    | none => st
    | some key =>
      let resolved := st.waiters.filter (fun w => w.2 == fid)
      let remaining := st.waiters.filter (fun w => w.2 != fid)
      match outcome with
      | .ok v =>
        { st with store := cacheSet st.store key v now,
                  inFlight := st.inFlight.filter (fun e => e.1 != key),
                  waiters := remaining,
                  results := st.results ++
                    resolved.map (fun w => (w.1, .success v false)) }
      | .err msg =>
        { st with inFlight := st.inFlight.filter (fun e => e.1 != key),
                  waiters := remaining,
                  results := st.results ++
                    resolved.map (fun w => (w.1, .failure msg)) }

/-- Run the cache service over a sequence of events. -/
def mrun {V : Type} (st : MState V) (events : List (MEvent V)) : MState V :=
  events.foldl mstep st

/-- A JSON value as it may appear in a request body field. -/
inductive JValue where
  | null
  | undef
  | bool (b : Bool)
  | num (q : ℚ)
  | str (s : String)
  | arr (l : List JValue)

/-- The POST /api/analyze request body fields read by routes/analyze.js. -/
structure RequestBody where
  countries : JValue
  riskTolerance : JValue
  duration : JValue

/-- routes/analyze.js VALID_RISK. -/
def VALID_RISK : List String := ["low", "moderate", "high"]

/-- routes/analyze.js VALID_DURATION. -/
def VALID_DURATION : List String := ["short", "long"]

/-- One entry of the countries array is acceptable when it is a string whose
trim is non-empty (JS: typeof c === "string" && c.trim() truthy). -/
def isNonEmptyStringEntry : JValue → Bool
  | .str s => !(jsTrim s == "")
  | _ => false

/-- JS riskTolerance?.toLowerCase?.() ∈ VALID_RISK: on a non-string the
optional call yields undefined, which is not in the list. -/
def riskToleranceOk : JValue → Bool
  | .str s => VALID_RISK.contains (jsToLower s)
  | _ => false

/-- JS duration?.toLowerCase?.() ∈ VALID_DURATION. -/
def durationOk : JValue → Bool
  | .str s => VALID_DURATION.contains (jsToLower s)
  | _ => false

/-- routes/analyze.js validateInput: the accumulated error-message list
(empty means the body is valid).  MIN_COUNTRIES = 3, MAX_COUNTRIES = 10. -/
def validateInput (body : RequestBody) : List String :=
  let countryErrors :=
    match body.countries with
    | JValue.arr l =>
      if l.length < 3 then
        ["\"countries\" must be an array of at least 3 country names."]
      else if l.length > 10 then
        ["Maximum 10 countries per request."]
      else if l.any (fun c => !(isNonEmptyStringEntry c)) then
        ["All entries in \"countries\" must be non-empty strings."]
      else []
    | _ => ["\"countries\" must be an array of at least 3 country names."]
  let rtErrors :=
    if riskToleranceOk body.riskTolerance then []
    else ["\"riskTolerance\" must be one of: low, moderate, high."]
  let dErrors :=
    if durationOk body.duration then []
    else ["\"duration\" must be one of: short, long."]
  countryErrors ++ rtErrors ++ dErrors

/-- JS [...new Set(list)]: deduplicate keeping first occurrences in order. -/
def jsSetDedup (l : List String) : List String :=
  l.foldl (fun acc c => if c ∈ acc then acc else acc ++ [c]) []

/-- routes/analyze.js step 2: uniqueCountries = [...new Set(countries.map(c
=> c.trim()))] — the dedup key is the trimmed name exactly as written. -/
def uniqueCountriesOf (countries : List String) : List String :=
  jsSetDedup (countries.map (fun c => jsTrim c))

/-- The country-data provider (apiService.fetchAllDataForCountry) as a
deterministic oracle: the promise either fulfills with a dataset (whose
found flag may be false) or rejects with an error message. -/
inductive FetchOutcome where
  | success (d : CountryDataSet)
  | failure (msg : String)

/-- The route handler's possible responses. -/
inductive AnalyzeResponse where
  | badRequest (errors : List String)
  | notFound (failed : List (String × String))
  | ok (uniqueCountries : List String) (weight_profile : WeightProfile)
      (ranked : List RankedEntry) (failed : List (String × String))
      (cacheHits cacheMisses : List String)
deriving DecidableEq

/-- Observable effect of one handler run: the response, the cache store it
leaves behind, and the country names for which the external producer was
actually invoked. -/
structure HandlerResult where
  response : AnalyzeResponse
  cache : CacheStore CountryDataSet
  producerCalls : List String
deriving DecidableEq

/-- routes/analyze.js POST handler: validate (returning 400 with the error
list before any fetching, caching or scoring), lowercase the profile inputs,
deduplicate the trimmed country names, run one getOrFetch per unique name
(sequentialized here: within one request each fetch settles before the next
lookup; the keys of one request are distinct after the case-sensitive dedup
except for case-variants, whose coalescing is not load-bearing for any
theorem below), partition by the found flag, 404 when nothing is valid, else
score, rank and report.  The JS in-place mutation of the cached datasets by
scoreCountry is analysed separately (see scoreCountry); here the score
result is consumed and the mutated record discarded. -/
def analyzePost (log10 : ℚ → ℚ) (fetcher : String → FetchOutcome) (now : Nat)
    (st : CacheStore CountryDataSet) (body : RequestBody) : HandlerResult :=
  let validationErrors := validateInput body
  if validationErrors.length > 0 then
    ⟨AnalyzeResponse.badRequest validationErrors, st, []⟩
  else
    let rt := match body.riskTolerance with | JValue.str s => jsToLower s | _ => ""
    let dur := match body.duration with | JValue.str s => jsToLower s | _ => ""
    let names :=
      (match body.countries with | JValue.arr l => l | _ => []).map
        (fun c => match c with | JValue.str s => s | _ => "")
    let uniqueCountries := uniqueCountriesOf names
    let step := fun (acc : CacheStore CountryDataSet × List String ×
        List (CountryDataSet × Bool)) (countryName : String) =>
      let cacheKey := "country:" ++ jsToLower countryName
      match cacheGet acc.1 cacheKey now with
      | (some d, store1) => (store1, acc.2.1, acc.2.2 ++ [(d, true)])
      | (none, store1) =>
        match fetcher countryName with
        | FetchOutcome.success d =>
          (cacheSet store1 cacheKey d now, acc.2.1 ++ [countryName],
            acc.2.2 ++ [(d, false)])
        | FetchOutcome.failure msg =>
          (store1, acc.2.1 ++ [countryName],
            acc.2.2 ++ [(⟨false, countryName, none, ⟨none, none⟩, none, none,
              none, some ("Failed to retrieve data: " ++ msg), none, none⟩,
              false)])
    let fetched := uniqueCountries.foldl step (st, [], [])
    let entries := fetched.2.2
    let validData := entries.filter (fun e => e.1.found)
    let errorData := entries.filter (fun e => !e.1.found)
    if validData.isEmpty then
      ⟨AnalyzeResponse.notFound
        (errorData.map (fun e => (e.1.country, (e.1.errorMsg).getD ""))),
        fetched.1, fetched.2.1⟩
    else
      let scoredCountries := validData.map (fun e =>
        ScoredEntry.mk e.1.country e.2 (scoreCountry log10 e.1 rt dur).1)
      let rankedResults := rankResults scoredCountries
      let hitNames := ((uniqueCountries.zip entries).filter
        (fun p => p.2.2)).map (fun p => p.1)
      let missNames := ((uniqueCountries.zip entries).filter
        (fun p => !p.2.2)).map (fun p => p.1)
      ⟨AnalyzeResponse.ok uniqueCountries (getDynamicWeights rt dur)
        rankedResults
        (errorData.map (fun e => (e.1.country, (e.1.errorMsg).getD "")))
        hitNames missNames,
        fetched.1, fetched.2.1⟩

/-- Modelled from the spec for claim C6 (refinement reference): the composite
a score triple is claimed to receive, computed from the UNROUNDED weight
triple: round(clamp(travelRisk*w1 + healthInfra*w2 + envStability*w3, 0,
100)) with (w1, w2, w3) the weights before the 3-decimal rounding. -/
def compositeSpecUnrounded (travel health env : ℚ)
    (riskTolerance duration : String) : ℚ :=
  ((jsRound (clampScore
    (travel * (getDynamicWeightsRaw riskTolerance duration).1 +
     health * (getDynamicWeightsRaw riskTolerance duration).2.1 +
     env * (getDynamicWeightsRaw riskTolerance duration).2.2)) : ℤ) : ℚ)

/-- The precondition of claim C10, in the claim's own words: countries is
not an array of 3 to 10 entries, or some entry is not a non-blank string, or
riskTolerance (case-insensitively) is not low/moderate/high, or duration is
not short/long. -/
def claimedInvalidBody (b : RequestBody) : Bool :=
  (match b.countries with
   | JValue.arr l =>
     !(decide (3 ≤ l.length ∧ l.length ≤ 10)) ||
       l.any (fun c => !(isNonEmptyStringEntry c))
   | _ => true) ||
  !(riskToleranceOk b.riskTolerance) || !(durationOk b.duration)

/-- A dataset with every raw metric absent (weather, aqi, advisory, both
World Bank values and the population all missing). -/
def emptyCountryData : CountryDataSet :=
  ⟨true, "Atlantis", none, ⟨none, none⟩, none, none, none, none, none, none⟩

/-- Concrete dataset for claim C6: its sub-scores are travel risk 26, health
infrastructure 50, environmental stability 58 (temperature 51.5 °C, spread
0, humidity 56 %, wind 12 m/s, clear sky 800, AQI 240, advisory 5.0, life
expectancy 67.5 yrs, health expenditure 8 % GDP, population missing). -/
def c6CountryData : CountryDataSet :=
  ⟨true, "Hotland", some ⟨none⟩, ⟨some 67.5, some 8⟩,
   some ⟨some 51.5, some 10, some 10, some 56, some 12, some 800⟩,
   some ⟨some 240⟩, some ⟨some 5⟩, none, none, none⟩

/-- A request body that fails validation: countries is not an array. -/
def c10BadBody : RequestBody :=
  ⟨JValue.null, JValue.str "low", JValue.str "short"⟩

/-! Helper evaluations shared by several theorems. -/

lemma jsToLower_low : jsToLower "low" = "low" := by decide

lemma jsToLower_moderate : jsToLower "moderate" = "moderate" := by decide

lemma jsToLower_high : jsToLower "high" = "high" := by decide

lemma jsToLower_short : jsToLower "short" = "short" := by decide

lemma jsToLower_long : jsToLower "long" = "long" := by decide

lemma str_moderate_ne_low : ¬ ("moderate" : String) = "low" := by decide

lemma str_moderate_ne_high : ¬ ("moderate" : String) = "high" := by decide

lemma str_high_ne_low : ¬ ("high" : String) = "low" := by decide

lemma str_short_ne_long : ¬ ("short" : String) = "long" := by decide

lemma str_long_ne_short : ¬ ("long" : String) = "short" := by decide

lemma str_low_ne_high : ¬ ("low" : String) = "high" := by decide

lemma gdwRaw_low_short :
    getDynamicWeightsRaw "low" "short" = (10/21, 83/525, 192/525) := by
  norm_num [getDynamicWeightsRaw, jsToLower_low, jsToLower_short,
    str_short_ne_long]

lemma gdwRaw_low_long :
    getDynamicWeightsRaw "low" "long" = (179/420, 71/210, 33/140) := by
  norm_num [getDynamicWeightsRaw, jsToLower_low, jsToLower_long]

lemma gdwRaw_moderate_short :
    getDynamicWeightsRaw "moderate" "short" = (2/5, 27/100, 33/100) := by
  norm_num [getDynamicWeightsRaw, jsToLower_moderate, jsToLower_short,
    str_moderate_ne_low, str_moderate_ne_high, str_short_ne_long]

lemma gdwRaw_moderate_long :
    getDynamicWeightsRaw "moderate" "long" = (7/20, 9/20, 1/5) := by
  norm_num [getDynamicWeightsRaw, jsToLower_moderate, jsToLower_long,
    str_moderate_ne_low, str_moderate_ne_high]

lemma gdwRaw_high_short :
    getDynamicWeightsRaw "high" "short" = (6/19, 112/475, 213/475) := by
  norm_num [getDynamicWeightsRaw, jsToLower_high, jsToLower_short,
    str_high_ne_low, str_short_ne_long]

lemma gdwRaw_high_long :
    getDynamicWeightsRaw "high" "long" = (101/380, 79/190, 121/380) := by
  norm_num [getDynamicWeightsRaw, jsToLower_high, jsToLower_long,
    str_high_ne_low]

lemma gdw_low_short :
    getDynamicWeights "low" "short" = ⟨476/1000, 158/1000, 366/1000⟩ := by
  norm_num [getDynamicWeights, gdwRaw_low_short, round3, jsRound]

lemma gdw_low_long :
    getDynamicWeights "low" "long" = ⟨426/1000, 338/1000, 236/1000⟩ := by
  norm_num [getDynamicWeights, gdwRaw_low_long, round3, jsRound]

lemma gdw_moderate_short :
    getDynamicWeights "moderate" "short" = ⟨400/1000, 270/1000, 330/1000⟩ := by
  norm_num [getDynamicWeights, gdwRaw_moderate_short, round3, jsRound]

lemma gdw_moderate_long :
    getDynamicWeights "moderate" "long" = ⟨350/1000, 450/1000, 200/1000⟩ := by
  norm_num [getDynamicWeights, gdwRaw_moderate_long, round3, jsRound]

lemma gdw_high_short :
    getDynamicWeights "high" "short" = ⟨316/1000, 236/1000, 448/1000⟩ := by
  norm_num [getDynamicWeights, gdwRaw_high_short, round3, jsRound]

lemma gdw_high_long :
    getDynamicWeights "high" "long" = ⟨266/1000, 416/1000, 318/1000⟩ := by
  norm_num [getDynamicWeights, gdwRaw_high_long, round3, jsRound]

/-- C7: for every riskTolerance in {low, moderate, high} and duration in
{short, long}, the weight triple returned by getDynamicWeights has all three
components non-negative and their sum within 1e-3 of 1.0 (here the rounded
sums are in fact exactly 1.0 for all six profiles). -/
theorem C7_weight_profiles (rt d : String)
    (hrt : rt = "low" ∨ rt = "moderate" ∨ rt = "high")
    (hd : d = "short" ∨ d = "long") :
    0 ≤ (getDynamicWeights rt d).travel_risk_score ∧
    0 ≤ (getDynamicWeights rt d).health_infrastructure_score ∧
    0 ≤ (getDynamicWeights rt d).environmental_stability_score ∧
    |(getDynamicWeights rt d).travel_risk_score +
      (getDynamicWeights rt d).health_infrastructure_score +
      (getDynamicWeights rt d).environmental_stability_score - 1| ≤ 1/1000 := by
  rcases hrt with rfl | rfl | rfl <;> rcases hd with rfl | rfl <;>
    norm_num [gdw_low_short, gdw_low_long, gdw_moderate_short,
      gdw_moderate_long, gdw_high_short, gdw_high_long]

/-- C7 witness: the theorem instantiated at the (low, short) profile. -/
theorem C7_weight_profiles_witness :
    0 ≤ (getDynamicWeights "low" "short").travel_risk_score ∧
    0 ≤ (getDynamicWeights "low" "short").health_infrastructure_score ∧
    0 ≤ (getDynamicWeights "low" "short").environmental_stability_score ∧
    |(getDynamicWeights "low" "short").travel_risk_score +
      (getDynamicWeights "low" "short").health_infrastructure_score +
      (getDynamicWeights "low" "short").environmental_stability_score - 1| ≤
      1/1000 :=
  C7_weight_profiles "low" "short" (Or.inl rfl) (Or.inl rfl)

/-- C1 counterexample: on a dataset with every raw metric absent and the
(moderate, short) profile, scoreCountry yields Travel Risk 58 (the missing
weather id incurs zero severity penalty, so the weather-event sub-score is
100, not 50) and composite 53 — refuting the claim that all three scores and
the composite are 50. -/
theorem C1_counterexample :
    ((scoreCountry (fun _ => 0) emptyCountryData "moderate" "short").1.travel_risk_score.score = 58 ∧
     (scoreCountry (fun _ => 0) emptyCountryData "moderate" "short").1.health_infrastructure_score.score = 50 ∧
     (scoreCountry (fun _ => 0) emptyCountryData "moderate" "short").1.environmental_stability_score.score = 50 ∧
     (scoreCountry (fun _ => 0) emptyCountryData "moderate" "short").1.composite_score = 53) ∧
    ¬((scoreCountry (fun _ => 0) emptyCountryData "moderate" "short").1.travel_risk_score.score = 50 ∧
      (scoreCountry (fun _ => 0) emptyCountryData "moderate" "short").1.composite_score = 50) := by
  norm_num [scoreCountry, emptyCountryData, computeTravelRiskScore,
    computeHealthInfrastructureScore, computeEnvironmentalStabilityScore,
    normalize, weatherSeverityPenalty, clampScore, jsRound,
    gdw_moderate_short]

/-- C1 amended: for every dataset whose raw metrics are all absent and every
profile in the 3×2 matrix, Health Infrastructure and Environmental Stability
are 50 but Travel Risk is 58 (missing weather id ⇒ zero severity penalty ⇒
weather-event sub-score 100), and the composite is 54 for (low, short), 52
for (high, long) and 53 for the other four profiles — never 50. -/
theorem C1_amended (log10 : ℚ → ℚ) (data : CountryDataSet)
    (hw : data.weather = none) (ha : data.aqi = none)
    (hadv : data.advisory = none)
    (hle : data.worldBank.lifeExpectancy = none)
    (hhe : data.worldBank.healthcareExpenditure = none)
    (hp : (data.profile).bind (fun p => p.population) = none)
    (rt d : String) (hrt : rt = "low" ∨ rt = "moderate" ∨ rt = "high")
    (hd : d = "short" ∨ d = "long") :
    (scoreCountry log10 data rt d).1.travel_risk_score.score = 58 ∧
    (scoreCountry log10 data rt d).1.health_infrastructure_score.score = 50 ∧
    (scoreCountry log10 data rt d).1.environmental_stability_score.score = 50 ∧
    (scoreCountry log10 data rt d).1.composite_score =
      (if rt = "low" ∧ d = "short" then 54
       else if rt = "high" ∧ d = "long" then 52 else 53) := by
  rcases hrt with rfl | rfl | rfl <;> rcases hd with rfl | rfl <;>
    norm_num [scoreCountry, computeTravelRiskScore,
      computeHealthInfrastructureScore, computeEnvironmentalStabilityScore,
      normalize, weatherSeverityPenalty, clampScore, jsRound,
      hw, ha, hadv, hle, hhe, hp,
      gdw_low_short, gdw_low_long, gdw_moderate_short, gdw_moderate_long,
      gdw_high_short, gdw_high_long,
      str_moderate_ne_low, str_moderate_ne_high, str_high_ne_low,
      str_short_ne_long, str_long_ne_short, str_low_ne_high]

/-- C1 witness: the amended theorem applied to the concrete all-absent
dataset with the (low, short) profile. -/
theorem C1_amended_witness :
    emptyCountryData.weather = none ∧ emptyCountryData.aqi = none ∧
    (scoreCountry (fun _ => 0) emptyCountryData "low" "short").1.travel_risk_score.score = 58 ∧
    (scoreCountry (fun _ => 0) emptyCountryData "low" "short").1.health_infrastructure_score.score = 50 ∧
    (scoreCountry (fun _ => 0) emptyCountryData "low" "short").1.environmental_stability_score.score = 50 ∧
    (scoreCountry (fun _ => 0) emptyCountryData "low" "short").1.composite_score = 54 := by
  have h := C1_amended (fun _ => 0) emptyCountryData rfl rfl rfl rfl rfl rfl
    "low" "short" (Or.inl rfl) (Or.inl rfl)
  refine ⟨rfl, rfl, h.1, h.2.1, h.2.2.1, ?_⟩
  rw [h.2.2.2]
  norm_num

/-- C2 counterexample: scoreCountry does modify the CountryDataSet it
receives (in JS, the cached object handed over by reference): after scoring
a freshly cached all-absent dataset, the record differs from the stored one —
its _riskTolerance field changed from none to some "low". -/
theorem C2_counterexample :
    (scoreCountry (fun _ => 0) emptyCountryData "low" "short").2 ≠
      emptyCountryData ∧
    ((scoreCountry (fun _ => 0) emptyCountryData "low" "short").2)._riskTolerance =
      some "low" ∧
    emptyCountryData._riskTolerance = none := by
  refine ⟨?_, rfl, rfl⟩
  intro h
  have := congrArg CountryDataSet._riskTolerance h
  simp [scoreCountry, emptyCountryData] at this

/-- C2 amended: a cached value is not fully immutable — scoreCountry writes
exactly the two metadata fields _riskTolerance and _duration onto the
dataset it is given (by reference in JS); every other field of the cached
value is left unchanged between store and expiry. -/
theorem C2_amended (log10 : ℚ → ℚ) (data : CountryDataSet)
    (rt d : String) :
    ((scoreCountry log10 data rt d).2)._riskTolerance = some rt ∧
    ((scoreCountry log10 data rt d).2)._duration = some d ∧
    ((scoreCountry log10 data rt d).2).found = data.found ∧
    ((scoreCountry log10 data rt d).2).country = data.country ∧
    ((scoreCountry log10 data rt d).2).profile = data.profile ∧
    ((scoreCountry log10 data rt d).2).worldBank = data.worldBank ∧
    ((scoreCountry log10 data rt d).2).weather = data.weather ∧
    ((scoreCountry log10 data rt d).2).aqi = data.aqi ∧
    ((scoreCountry log10 data rt d).2).advisory = data.advisory ∧
    ((scoreCountry log10 data rt d).2).errorMsg = data.errorMsg := by
  simp [scoreCountry]

/-- C4: the route deduplicates after trim only — the dedup is case
SENSITIVE, contradicting the source's own "(case-insensitive)" comment: for
the input ["Germany", "germany", "France"] the unique list keeps both
"Germany" and "germany", two entries equal up to case.  (First-seen order is
preserved.) -/
theorem C4_case_sensitive_dedup :
    uniqueCountriesOf ["Germany", "germany", "France"] =
      ["Germany", "germany", "France"] ∧
    jsToLower "Germany" = jsToLower "germany" ∧
    ("Germany" : String) ≠ "germany" := by
  refine ⟨by decide, by decide, by decide⟩

/-- C6 counterexample: for the concrete dataset with score triple (26, 50,
58) under the (low, short) profile, the composite computed by scoreCountry
(which uses the 3-decimal-ROUNDED weights, 26·0.476 + 50·0.158 + 58·0.366 =
41.504 → 42) differs from the claim's formula over the unrounded weights
(26·10/21 + 50·83/525 + 58·192/525 = 41.497… → 41). -/
theorem C6_counterexample :
    (scoreCountry (fun _ => 0) c6CountryData "low" "short").1.travel_risk_score.score = 26 ∧
    (scoreCountry (fun _ => 0) c6CountryData "low" "short").1.health_infrastructure_score.score = 50 ∧
    (scoreCountry (fun _ => 0) c6CountryData "low" "short").1.environmental_stability_score.score = 58 ∧
    (scoreCountry (fun _ => 0) c6CountryData "low" "short").1.composite_score = 42 ∧
    compositeSpecUnrounded 26 50 58 "low" "short" = 41 ∧
    (scoreCountry (fun _ => 0) c6CountryData "low" "short").1.composite_score ≠
      compositeSpecUnrounded
        (scoreCountry (fun _ => 0) c6CountryData "low" "short").1.travel_risk_score.score
        (scoreCountry (fun _ => 0) c6CountryData "low" "short").1.health_infrastructure_score.score
        (scoreCountry (fun _ => 0) c6CountryData "low" "short").1.environmental_stability_score.score
        "low" "short" := by
  have hscores :
      (scoreCountry (fun _ => 0) c6CountryData "low" "short").1.travel_risk_score.score = 26 ∧
      (scoreCountry (fun _ => 0) c6CountryData "low" "short").1.health_infrastructure_score.score = 50 ∧
      (scoreCountry (fun _ => 0) c6CountryData "low" "short").1.environmental_stability_score.score = 58 ∧
      (scoreCountry (fun _ => 0) c6CountryData "low" "short").1.composite_score = 42 := by
    norm_num [scoreCountry, c6CountryData, computeTravelRiskScore,
      computeHealthInfrastructureScore, computeEnvironmentalStabilityScore,
      tempComfortScore, normalize, weatherSeverityPenalty, clampScore,
      jsRound, gdw_low_short]
  have hspec : compositeSpecUnrounded 26 50 58 "low" "short" = 41 := by
    norm_num [compositeSpecUnrounded, gdwRaw_low_short, clampScore, jsRound]
  refine ⟨hscores.1, hscores.2.1, hscores.2.2.1, hscores.2.2.2, hspec, ?_⟩
  rw [hscores.1, hscores.2.1, hscores.2.2.1, hscores.2.2.2, hspec]
  norm_num

/-- C6 amended: the 3-decimal rounding happens inside getDynamicWeights, so
the composite of every country is computed from the ROUNDED weight triple:
composite = round(clamp(travel·round3(w1) + health·round3(w2) +
env·round3(w3), 0, 100)) with (w1, w2, w3) the raw (unrounded) weights. -/
theorem C6_amended (log10 : ℚ → ℚ) (data : CountryDataSet)
    (rt d : String) :
    (scoreCountry log10 data rt d).1.composite_score =
      ((jsRound (clampScore
        ((computeTravelRiskScore data).score *
            round3 (getDynamicWeightsRaw rt d).1 +
         (computeHealthInfrastructureScore log10 data).score *
            round3 (getDynamicWeightsRaw rt d).2.1 +
         (computeEnvironmentalStabilityScore data).score *
            round3 (getDynamicWeightsRaw rt d).2.2)) : ℤ) : ℚ) := by
  simp [scoreCountry, getDynamicWeights]

lemma jsRound_add_complement (y : ℚ) :
    |((jsRound y : ℤ) : ℚ) + ((jsRound (100 - y) : ℤ) : ℚ) - 100| ≤ 1 := by
  unfold jsRound
  have key : (100 : ℚ) - y + 1/2 = -(y + 1/2) + ((101 : ℤ) : ℚ) := by
    push_cast
    ring
  rw [key, Int.floor_add_int, Int.floor_neg]
  have h1 := Int.floor_le_ceil (y + 1/2)
  have h2 := Int.ceil_le_floor_add_one (y + 1/2)
  have h1q : ((⌊y + 1/2⌋ : ℤ) : ℚ) ≤ ((⌈y + 1/2⌉ : ℤ) : ℚ) := by
    exact_mod_cast h1
  have h2q : ((⌈y + 1/2⌉ : ℤ) : ℚ) ≤ ((⌊y + 1/2⌋ : ℤ) : ℚ) + 1 := by
    exact_mod_cast h2
  rw [abs_le]
  constructor <;> push_cast <;> linarith

/-- C9: for every real (non-null, non-NaN) v and all min < max, the
higher-is-better and lower-is-better normalizations of v over the same range
sum to 100 within one unit (they differ from 100 only by the double
half-rounding, which contributes at most 1). -/
theorem C9_normalize_complement (v min max : ℚ) (h : min < max) :
    |normalize (some v) min max true 50 +
      normalize (some v) min max false 50 - 100| ≤ 1 := by
  have e1 : normalize (some v) min max true 50 =
      ((jsRound ((Max.max min (Min.min max v) - min) / (max - min) * 100) : ℤ) : ℚ) := rfl
  have e2 : normalize (some v) min max false 50 =
      ((jsRound ((1 - (Max.max min (Min.min max v) - min) / (max - min)) * 100) : ℤ) : ℚ) := rfl
  have e3 : (1 - (Max.max min (Min.min max v) - min) / (max - min)) * 100 =
      100 - (Max.max min (Min.min max v) - min) / (max - min) * 100 := by ring
  rw [e1, e2, e3]
  exact jsRound_add_complement _

/-- C9 witness: the theorem instantiated at v = 3 over the range 0–10. -/
theorem C9_normalize_complement_witness :
    (0 : ℚ) < 10 ∧
    |normalize (some 3) 0 10 true 50 + normalize (some 3) 0 10 false 50 - 100| ≤ 1 :=
  ⟨by norm_num, C9_normalize_complement 3 0 10 (by norm_num)⟩

/-! Small-step lemmas for the cache event machine. -/

lemma mrun_nil {V : Type} (st : MState V) : mrun st [] = st := rfl

lemma mrun_cons {V : Type} (st : MState V) (e : MEvent V) (es : List (MEvent V)) :
    mrun st (e :: es) = mrun (mstep st e) es := rfl

lemma mrun_append {V : Type} (st : MState V) (es1 es2 : List (MEvent V)) :
    mrun st (es1 ++ es2) = mrun (mrun st es1) es2 :=
  List.foldl_append _ _ _ _

/-- A call on an empty store with no in-flight registration starts a fresh
producer: it is registered before any suspension point. -/
lemma mstep_call_fresh {V : Type} (n : Nat) (pr : List (Nat × String))
    (w : List (Nat × Nat)) (res : List (Nat × CallResult V))
    (i : Nat) (key : String) (now : Nat) :
    mstep (V := V) ⟨[], [], n, pr, w, res⟩ (MEvent.call i key now) =
      ⟨[], [(key, n)], n + 1, pr ++ [(n, key)], w ++ [(i, n)], res⟩ := by
  simp [mstep, cacheGet]

/-- A call on an empty store that finds an in-flight registration joins it. -/
lemma mstep_call_join {V : Type} (key : String) (fid n : Nat)
    (pr : List (Nat × String)) (w : List (Nat × Nat))
    (res : List (Nat × CallResult V)) (i now : Nat) :
    mstep (V := V) ⟨[], [(key, fid)], n, pr, w, res⟩ (MEvent.call i key now) =
      ⟨[], [(key, fid)], n, pr, w ++ [(i, fid)], res⟩ := by
  simp [mstep, cacheGet, List.lookup]

/-- Any number of further calls on the same key while a fetch is in flight
merely appends waiters. -/
lemma mrun_calls_join {V : Type} (ids : List Nat) (key : String)
    (tc : Nat → Nat) (fid n : Nat) (pr : List (Nat × String))
    (res : List (Nat × CallResult V)) :
    ∀ w, mrun (V := V) ⟨[], [(key, fid)], n, pr, w, res⟩
      (ids.map (fun i => MEvent.call i key (tc i))) =
      ⟨[], [(key, fid)], n, pr, w ++ ids.map (fun i => (i, fid)), res⟩ := by
  induction ids with
  | nil => intro w; simp [mrun]
  | cons i rest ih =>
    intro w
    simp only [List.map_cons, mrun_cons, mstep_call_join]
    rw [ih (w ++ [(i, fid)])]
    simp

lemma filter_snd_beq_self {β : Type} (ids : List β) (c : Nat) :
    (ids.map (fun i => (i, c))).filter (fun w => w.2 == c) =
      ids.map (fun i => (i, c)) := by
  induction ids <;> simp [*]

lemma filter_snd_bne_self {β : Type} (ids : List β) (c : Nat) :
    (ids.map (fun i => (i, c))).filter (fun w => w.2 != c) = [] := by
  induction ids <;> simp [*]

/-- Successful settlement of fetch 0: value cached, registration cleared,
every waiter resolved with (value, cacheHit = false). -/
lemma mstep_settle_ok_all {V : Type} (key : String) (v : V) (ts : Nat)
    (ids : List Nat) (n : Nat) :
    mstep (V := V) ⟨[], [(key, 0)], n, [(0, key)], ids.map (fun i => (i, 0)), []⟩
      (MEvent.settle 0 (FetchSettle.ok v) ts) =
      ⟨[(key, ts + TTL_MS, v)], [], n, [(0, key)], [],
        ids.map (fun i => (i, CallResult.success v false))⟩ := by
  simp [mstep, cacheSet, List.lookup, filter_snd_beq_self, filter_snd_bne_self,
    List.map_map, Function.comp]

/-- Failed settlement of fetch 0: nothing cached, registration cleared, the
rejection propagated to every waiter. -/
lemma mstep_settle_err_all {V : Type} (key msg : String) (ts : Nat)
    (ids : List Nat) (n : Nat) :
    mstep (V := V) ⟨[], [(key, 0)], n, [(0, key)], ids.map (fun i => (i, 0)), []⟩
      (MEvent.settle 0 (FetchSettle.err msg) ts) =
      ⟨[], [], n, [(0, key)], [],
        ids.map (fun i => (i, CallResult.failure msg))⟩ := by
  simp [mstep, List.lookup, filter_snd_beq_self, filter_snd_bne_self,
    List.map_map, Function.comp]

lemma lookup_map_pair {β : Type} (l : List Nat) (i : Nat) (h : i ∈ l) (r : β) :
    List.lookup i (l.map (fun j => (j, r))) = some r := by
  induction l with
  | nil => cases h
  | cons j t ih =>
    by_cases hij : i = j
    · subst hij
      simp [List.lookup]
    · have hmem : i ∈ t := by
        rcases List.mem_cons.mp h with h1 | h1
        · exact absurd h1 hij
        · exact h1
      have hb : (i == j) = false := beq_eq_false_iff_ne.mpr hij
      simp [List.lookup, hb, ih hmem]

/-- C3: when any non-empty batch of getOrFetch calls on one key all start
while the producer is still pending (a slow producer: the settle event comes
after every call event), the producer is invoked exactly once — the run's
producer log is exactly [(0, key)] — and every call resolves to the
identical value with cacheHit = false (none of them read a completed cache
entry). -/
theorem C3_inflight_coalescing {V : Type} (ids : List Nat) (key : String)
    (v : V) (tc : Nat → Nat) (ts : Nat) (h : ids ≠ []) :
    (mrun minit (ids.map (fun i => MEvent.call i key (tc i)) ++
      [MEvent.settle 0 (FetchSettle.ok v) ts])).producerRuns = [(0, key)] ∧
    ∀ i ∈ ids,
      List.lookup i ((mrun minit (ids.map (fun i => MEvent.call i key (tc i)) ++
        [MEvent.settle 0 (FetchSettle.ok v) ts])).results) =
        some (CallResult.success v false) := by
  obtain ⟨i0, rest, rfl⟩ := List.exists_cons_of_ne_nil h
  have h1 : mstep (V := V) minit (MEvent.call i0 key (tc i0)) =
      ⟨[], [(key, 0)], 1, [(0, key)], [(i0, 0)], []⟩ := by
    have := mstep_call_fresh (V := V) 0 [] [] [] i0 key (tc i0)
    simpa [minit] using this
  have h2 : ([(i0, 0)] : List (Nat × Nat)) ++ rest.map (fun i => (i, 0)) =
      (i0 :: rest).map (fun i => (i, 0)) := by simp
  have hcalls : mrun (V := V) minit
      ((i0 :: rest).map (fun i => MEvent.call i key (tc i))) =
      ⟨[], [(key, 0)], 1, [(0, key)], (i0 :: rest).map (fun i => (i, 0)), []⟩ := by
    rw [List.map_cons, mrun_cons, h1,
      mrun_calls_join rest key tc 0 1 [(0, key)] [] [(i0, 0)], h2]
  have hrun : mrun (V := V) minit
      ((i0 :: rest).map (fun i => MEvent.call i key (tc i)) ++
        [MEvent.settle 0 (FetchSettle.ok v) ts]) =
      ⟨[(key, ts + TTL_MS, v)], [], 1, [(0, key)], [],
        (i0 :: rest).map (fun i => (i, CallResult.success v false))⟩ := by
    rw [mrun_append, hcalls, mrun_cons, mrun_nil, mstep_settle_ok_all]
  rw [hrun]
  exact ⟨rfl, fun i hi => lookup_map_pair _ i hi _⟩

/-- C3 witness: three overlapping calls on one key, producer value 7. -/
theorem C3_inflight_coalescing_witness :
    (mrun (V := Nat) minit ([0, 1, 2].map (fun i => MEvent.call i "k" 0) ++
      [MEvent.settle 0 (FetchSettle.ok 7) 5])).producerRuns = [(0, "k")] ∧
    ∀ i ∈ ([0, 1, 2] : List Nat),
      List.lookup i ((mrun (V := Nat) minit
        ([0, 1, 2].map (fun i => MEvent.call i "k" 0) ++
          [MEvent.settle 0 (FetchSettle.ok 7) 5])).results) =
        some (CallResult.success 7 false) := by
  have h := C3_inflight_coalescing (V := Nat) [0, 1, 2] "k" 7 (fun _ => 0) 5
    (by simp)
  simpa using h

/-- C5: if the producer rejects, no cache entry is written (the store is
still empty after the run), the rejection is propagated to the original
caller and every joined waiter, and a subsequent getOrFetch on the same key
re-invokes the producer (the producer log gains a second entry). -/
theorem C5_failed_producer_not_cached {V : Type} (ids : List Nat)
    (key msg : String) (tc : Nat → Nat) (ts c2 t2 : Nat) (h : ids ≠ []) :
    (mrun (V := V) minit (ids.map (fun i => MEvent.call i key (tc i)) ++
      [MEvent.settle 0 (FetchSettle.err msg) ts,
       MEvent.call c2 key t2])).store = [] ∧
    (mrun (V := V) minit (ids.map (fun i => MEvent.call i key (tc i)) ++
      [MEvent.settle 0 (FetchSettle.err msg) ts,
       MEvent.call c2 key t2])).producerRuns = [(0, key), (1, key)] ∧
    ∀ i ∈ ids,
      List.lookup i ((mrun (V := V) minit
        (ids.map (fun i => MEvent.call i key (tc i)) ++
          [MEvent.settle 0 (FetchSettle.err msg) ts,
           MEvent.call c2 key t2])).results) =
        some (CallResult.failure msg) := by
  obtain ⟨i0, rest, rfl⟩ := List.exists_cons_of_ne_nil h
  have h1 : mstep (V := V) minit (MEvent.call i0 key (tc i0)) =
      ⟨[], [(key, 0)], 1, [(0, key)], [(i0, 0)], []⟩ := by
    have := mstep_call_fresh (V := V) 0 [] [] [] i0 key (tc i0)
    simpa [minit] using this
  have h2 : ([(i0, 0)] : List (Nat × Nat)) ++ rest.map (fun i => (i, 0)) =
      (i0 :: rest).map (fun i => (i, 0)) := by simp
  have h3 : mstep (V := V)
      ⟨[], [], 1, [(0, key)], [],
        (i0 :: rest).map (fun i => (i, CallResult.failure msg))⟩
      (MEvent.call c2 key t2) =
      ⟨[], [(key, 1)], 2, [(0, key), (1, key)], [(c2, 1)],
        (i0 :: rest).map (fun i => (i, CallResult.failure msg))⟩ := by
    have := mstep_call_fresh (V := V) 1 [(0, key)] []
      ((i0 :: rest).map (fun i => (i, CallResult.failure msg))) c2 key t2
    simpa using this
  have hcalls : mrun (V := V) minit
      ((i0 :: rest).map (fun i => MEvent.call i key (tc i))) =
      ⟨[], [(key, 0)], 1, [(0, key)], (i0 :: rest).map (fun i => (i, 0)), []⟩ := by
    rw [List.map_cons, mrun_cons, h1,
      mrun_calls_join rest key tc 0 1 [(0, key)] [] [(i0, 0)], h2]
  have hrun : mrun (V := V) minit
      ((i0 :: rest).map (fun i => MEvent.call i key (tc i)) ++
        [MEvent.settle 0 (FetchSettle.err msg) ts, MEvent.call c2 key t2]) =
      ⟨[], [(key, 1)], 2, [(0, key), (1, key)], [(c2, 1)],
        (i0 :: rest).map (fun i => (i, CallResult.failure msg))⟩ := by
    rw [mrun_append, hcalls, mrun_cons, mstep_settle_err_all, mrun_cons,
      mrun_nil, h3]
  rw [hrun]
  exact ⟨rfl, rfl, fun i hi => lookup_map_pair _ i hi _⟩

/-- C5 witness: two overlapping calls whose producer rejects, then a retry. -/
theorem C5_failed_producer_not_cached_witness :
    (mrun (V := Nat) minit ([0, 1].map (fun i => MEvent.call i "k" 0) ++
      [MEvent.settle 0 (FetchSettle.err "boom") 3,
       MEvent.call 9 "k" 4])).store = [] ∧
    (mrun (V := Nat) minit ([0, 1].map (fun i => MEvent.call i "k" 0) ++
      [MEvent.settle 0 (FetchSettle.err "boom") 3,
       MEvent.call 9 "k" 4])).producerRuns = [(0, "k"), (1, "k")] ∧
    ∀ i ∈ ([0, 1] : List Nat),
      List.lookup i ((mrun (V := Nat) minit
        ([0, 1].map (fun i => MEvent.call i "k" 0) ++
          [MEvent.settle 0 (FetchSettle.err "boom") 3,
           MEvent.call 9 "k" 4])).results) =
        some (CallResult.failure "boom") := by
  have h := C5_failed_producer_not_cached (V := Nat) [0, 1] "k" "boom"
    (fun _ => 0) 3 9 4 (by simp)
  simpa using h

/-- C8: an entry written at t0 with the 60-minute TTL is a hit (with the
stored value, store untouched) when read at t0 + 59 min, and a read at
t0 + 61 min is a miss that deletes the entry; correspondingly a getOrFetch
call event at t0 + 59 min resolves immediately from the cache with
cacheHit = true, while at t0 + 61 min the entry is evicted and a fresh
producer is invoked (the miss path). -/
theorem C8_ttl_boundaries {V : Type} (v : V) (key : String) (t0 cid : Nat) :
    cacheGet (cacheSet ([] : CacheStore V) key v t0) key (t0 + 59 * 60000) =
      (some v, cacheSet ([] : CacheStore V) key v t0) ∧
    cacheGet (cacheSet ([] : CacheStore V) key v t0) key (t0 + 61 * 60000) =
      (none, ([] : CacheStore V)) ∧
    (mrun (V := V) ⟨cacheSet [] key v t0, [], 0, [], [], []⟩
      [MEvent.call cid key (t0 + 59 * 60000)]).results =
      [(cid, CallResult.success v true)] ∧
    (mrun (V := V) ⟨cacheSet [] key v t0, [], 0, [], [], []⟩
      [MEvent.call cid key (t0 + 61 * 60000)]).store = [] ∧
    (mrun (V := V) ⟨cacheSet [] key v t0, [], 0, [], [], []⟩
      [MEvent.call cid key (t0 + 61 * 60000)]).producerRuns = [(0, key)] := by
  have hset : cacheSet ([] : CacheStore V) key v t0 = [(key, t0 + TTL_MS, v)] := by
    simp [cacheSet]
  have hTTL : TTL_MS = 3600000 := by norm_num [TTL_MS]
  have h59 : cacheGet [(key, t0 + TTL_MS, v)] key (t0 + 59 * 60000) =
      (some v, [(key, t0 + TTL_MS, v)]) := by
    rw [cacheGet]
    simp only [List.lookup, beq_self_eq_true]
    rw [if_neg (by omega)]
  have h61 : cacheGet [(key, t0 + TTL_MS, v)] key (t0 + 61 * 60000) =
      (none, ([] : CacheStore V)) := by
    rw [cacheGet]
    simp only [List.lookup, beq_self_eq_true]
    rw [if_pos (by omega)]
    simp [cacheDelete]
  refine ⟨by rw [hset, h59], by rw [hset, h61], ?_, ?_, ?_⟩
  · rw [mrun_cons, mrun_nil, mstep, hset]
    simp [h59]
  · rw [mrun_cons, mrun_nil, mstep, hset]
    simp [h61, List.lookup]
  · rw [mrun_cons, mrun_nil, mstep, hset]
    simp [h61, List.lookup]

/-- A body that is invalid in the sense of claim C10 never passes
validateInput with an empty error list. -/
lemma validateInput_ne_nil_of_claimedInvalid (b : RequestBody)
    (h : claimedInvalidBody b = true) : validateInput b ≠ [] := by
  intro hnil
  by_cases hrtOk : riskToleranceOk b.riskTolerance = true
  · by_cases hdOk : durationOk b.duration = true
    · rcases hcs : b.countries with _ | _ | bb | q | s | l
      · simp [validateInput, hcs] at hnil
      · simp [validateInput, hcs] at hnil
      · simp [validateInput, hcs] at hnil
      · simp [validateInput, hcs] at hnil
      · simp [validateInput, hcs] at hnil
      · by_cases h1 : l.length < 3
        · simp [validateInput, hcs, h1] at hnil
        · by_cases h2 : l.length > 10
          · simp [validateInput, hcs, h1, h2] at hnil
          · by_cases h3 : l.any (fun c => !(isNonEmptyStringEntry c)) = true
            · simp [validateInput, hcs, h1, h2, h3] at hnil
            · have hany : l.any (fun c => !(isNonEmptyStringEntry c)) = false :=
                Bool.not_eq_true _ |>.mp h3
              have hlen : 3 ≤ l.length ∧ l.length ≤ 10 := by omega
              rw [claimedInvalidBody, hcs] at h
              simp [hrtOk, hdOk, hany, hlen] at h
    · simp [validateInput, hdOk] at hnil
  · simp [validateInput, hrtOk] at hnil

/-- C10: every request body whose countries field is not an array of 3–10
non-blank strings, or whose riskTolerance / duration (case-insensitively)
are not in their allowed sets, is rejected by the analyze route with the
validation failure (status 400 carrying the accumulated error list), and
the handler performs no fetching, no caching and no scoring: the cache
store is returned unchanged and the producer-invocation list is empty. -/
theorem C10_invalid_body_rejected (log10 : ℚ → ℚ)
    (fetcher : String → FetchOutcome) (now : Nat)
    (st : CacheStore CountryDataSet) (body : RequestBody)
    (h : claimedInvalidBody body = true) :
    validateInput body ≠ [] ∧
    analyzePost log10 fetcher now st body =
      ⟨AnalyzeResponse.badRequest (validateInput body), st, []⟩ := by
  have hne := validateInput_ne_nil_of_claimedInvalid body h
  refine ⟨hne, ?_⟩
  have hlen : (validateInput body).length > 0 := List.length_pos.mpr hne
  unfold analyzePost
  rw [if_pos hlen]

/-- C10 witness: the theorem applied to a body whose countries field is not
an array. -/
theorem C10_invalid_body_rejected_witness :
    claimedInvalidBody c10BadBody = true ∧
    validateInput c10BadBody ≠ [] ∧
    analyzePost (fun _ => 0) (fun _ => FetchOutcome.failure "unavailable") 0 []
      c10BadBody =
      ⟨AnalyzeResponse.badRequest (validateInput c10BadBody), [], []⟩ := by
  have h := C10_invalid_body_rejected (fun _ => 0)
    (fun _ => FetchOutcome.failure "unavailable") 0 [] c10BadBody (by decide)
  exact ⟨by decide, h.1, h.2⟩

end GeoIntel
